import Mathlib

/-!
Shallow embedding of the ZMK RGB underglow module
(`src/app/src/rgb_underglow.c`) and proofs about it.

Conventions of the embedding:
* C machine integers become `Nat` (unsigned) or `Int` (signed), with the
  width-specific wraparound written explicitly (`% 65536` for `uint16_t`,
  `% 256` for `uint8_t`, `Int.emod` for conversions from `int`) at exactly
  the places the C code performs an implicit conversion.
* The global `led_strip` device pointer is passed to each public command as
  an explicit `ready : Bool` parameter (the C functions test `!led_strip`);
  a command whose C body never reads `led_strip` receives the parameter and
  ignores it, mirroring the source.
* `struct rgb_underglow_state state` becomes explicit state passing: each
  command returns `Int × RgbState` (the C return code and new state).
* The fixed-size pixel arrays `pixels` / `status_pixels` are modelled as
  functions `Nat → Rgb` (index to pixel); the strip length is a device-tree
  constant and every loop in the compositing path is uniform in the index.
* External collaborators (battery gauge, timer, power rail, split link,
  strip driver, floating-point `hsb_to_rgb` rendering) are out of scope of
  the claims and are modelled as inputs/outputs of the pure functions.
-/

/-- `HUE_MAX` from rgb_underglow.c. -/
def HUE_MAX : Nat := 360

/-- `SAT_MAX` from rgb_underglow.c. -/
def SAT_MAX : Nat := 100

/-- `BRT_MAX` from rgb_underglow.c. -/
def BRT_MAX : Nat := 100

/-- `UNDERGLOW_EFFECT_NUMBER`: number of entries of `enum rgb_underglow_effect`
preceding it (Solid, Breathe, Spectrum, Swirl, Kinesis, Battery, Test). -/
def UNDERGLOW_EFFECT_NUMBER : Nat := 7

/-- Zephyr errno value `ENODEV` (the C code returns `-ENODEV`). -/
def ENODEV : Int := 19

/-- Zephyr errno value `EINVAL` (the C code returns `-EINVAL`). -/
def EINVAL : Int := 22

/-- Zephyr errno value `ENOTSUP` (the C code returns `-ENOTSUP`). -/
def ENOTSUP : Int := 134

/-- Modelled from the spec: `struct zmk_led_hsb` (header
`include/zmk/rgb_underglow.h` is not part of the provided sources).
Per the spec data model, hue, saturation and brightness are nonnegative
integers; we use `Nat` fields. -/
structure Hsb where
  h : Nat
  s : Nat
  b : Nat
deriving Repr, DecidableEq

/-- `struct led_rgb`: one pixel, three 8-bit channels (values kept in `Nat`,
with the 8-bit store written explicitly where the C code truncates). -/
structure Rgb where
  r : Nat
  g : Nat
  b : Nat
deriving Repr, DecidableEq

/-- `struct rgb_underglow_state` from rgb_underglow.c. -/
structure RgbState where
  color : Hsb
  animation_speed : Nat
  current_effect : Nat
  animation_step : Nat
  is_on : Bool
  status_active : Bool
  status_animation_step : Nat
deriving Repr, DecidableEq

/-- Modelled from the spec: `struct zmk_periph_led` (header not in the
provided sources; the spec describes the synchronized display record as
{ active_layer, indicator bitmask, on flag, current effect }). -/
structure PeriphLed where
  layer : Nat
  indicators : Nat
  is_on : Bool
  effect : Nat
deriving Repr, DecidableEq

/-- Compile-time Kconfig parameters referenced by the module
(`CONFIG_ZMK_RGB_UNDERGLOW_*`), passed explicitly. -/
structure Config where
  brt_min : Nat
  brt_max : Nat
  hue_step : Nat
  sat_step : Nat
  brt_step : Nat
deriving Repr, DecidableEq

/-- `hsb_scale_min_max`: brightness linearly remapped into
[brt_min, brt_max]. -/
def hsb_scale_min_max (cfg : Config) (hsb : Hsb) : Hsb :=
  { hsb with b := cfg.brt_min + (cfg.brt_max - cfg.brt_min) * hsb.b / BRT_MAX }

/-- `hsb_scale_zero_max`: brightness linearly remapped into [0, brt_max]. -/
def hsb_scale_zero_max (cfg : Config) (hsb : Hsb) : Hsb :=
  { hsb with b := hsb.b * cfg.brt_max / BRT_MAX }

/-- `zmk_rgb_underglow_on` (state-relevant part): fails with `-ENODEV` when
the strip device is unavailable; otherwise sets `state.on = true` and
`state.animation_step = 0` (timer start, power rail and split send are
external effects). -/
def zmk_rgb_underglow_on (ready : Bool) (st : RgbState) : Int × RgbState :=
  if !ready then (-ENODEV, st)
  else (0, { st with is_on := true, animation_step := 0 })

/-- `zmk_rgb_underglow_off` (state-relevant part): fails with `-ENODEV` when
the strip device is unavailable; otherwise sets `state.on = false` (timer
stop, pixel clearing work item and power rail are external effects). -/
def zmk_rgb_underglow_off (ready : Bool) (st : RgbState) : Int × RgbState :=
  if !ready then (-ENODEV, st)
  else (0, { st with is_on := false })

/-- `zmk_rgb_underglow_toggle`. -/
def zmk_rgb_underglow_toggle (ready : Bool) (st : RgbState) : Int × RgbState :=
  if st.is_on then zmk_rgb_underglow_off ready st else zmk_rgb_underglow_on ready st

/-- `zmk_rgb_underglow_calc_effect`: C `%` on `int` operands is truncated
division remainder, hence `Int.tmod`. -/
def zmk_rgb_underglow_calc_effect (st : RgbState) (direction : Int) : Int :=
  Int.tmod ((st.current_effect : Int) + (UNDERGLOW_EFFECT_NUMBER : Int) + direction)
    (UNDERGLOW_EFFECT_NUMBER : Int)

/-- `zmk_rgb_underglow_select_effect`: device check, then range check
`effect < 0 || effect >= UNDERGLOW_EFFECT_NUMBER`, then stores the effect
(into the `uint8_t` field) and resets the animation counter. -/
def zmk_rgb_underglow_select_effect (ready : Bool) (st : RgbState) (effect : Int) :
    Int × RgbState :=
  if !ready then (-ENODEV, st)
  else if effect < 0 ∨ (UNDERGLOW_EFFECT_NUMBER : Int) ≤ effect then (-EINVAL, st)
  else (0, { st with current_effect := effect.toNat, animation_step := 0 })

/-- `zmk_rgb_underglow_cycle_effect`. -/
def zmk_rgb_underglow_cycle_effect (ready : Bool) (st : RgbState) (direction : Int) :
    Int × RgbState :=
  zmk_rgb_underglow_select_effect ready st (zmk_rgb_underglow_calc_effect st direction)

/-- `zmk_rgb_underglow_set_hsb`: rejects `h > HUE_MAX || s > SAT_MAX ||
b > BRT_MAX` with `-ENOTSUP`, otherwise stores the color. The C body never
reads `led_strip`; the `ready` parameter is therefore unused, mirroring the
source. -/
def zmk_rgb_underglow_set_hsb (_ready : Bool) (st : RgbState) (color : Hsb) :
    Int × RgbState :=
  if HUE_MAX < color.h ∨ SAT_MAX < color.s ∨ BRT_MAX < color.b then (-ENOTSUP, st)
  else (0, { st with color := color })

/-- `zmk_rgb_underglow_calc_hue`: `color.h += HUE_MAX + direction * HUE_STEP`
on the 16-bit hue field (conversion of the `int` sum back to the field is
`emod 65536`), then `color.h %= HUE_MAX`. -/
def zmk_rgb_underglow_calc_hue (cfg : Config) (st : RgbState) (direction : Int) : Hsb :=
  let h : Nat :=
    ((((st.color.h : Int) + (HUE_MAX : Int) + direction * (cfg.hue_step : Int)).emod
        65536).toNat) % HUE_MAX
  { st.color with h := h }

/-- `zmk_rgb_underglow_calc_sat`: saturation stepped in `int`, clamped to
[0, SAT_MAX]. -/
def zmk_rgb_underglow_calc_sat (cfg : Config) (st : RgbState) (direction : Int) : Hsb :=
  let s : Int := (st.color.s : Int) + direction * (cfg.sat_step : Int)
  let s : Int := if s < 0 then 0 else if (SAT_MAX : Int) < s then (SAT_MAX : Int) else s
  { st.color with s := s.toNat }

/-- `zmk_rgb_underglow_calc_brt`: brightness stepped in `int`,
`CLAMP(b, 0, BRT_MAX)`. -/
def zmk_rgb_underglow_calc_brt (cfg : Config) (st : RgbState) (direction : Int) : Hsb :=
  let b : Int := (st.color.b : Int) + direction * (cfg.brt_step : Int)
  let b : Int := if b < 0 then 0 else if (BRT_MAX : Int) < b then (BRT_MAX : Int) else b
  { st.color with b := b.toNat }

/-- `zmk_rgb_underglow_change_hue` (`zmk_rgb_underglow_save_state` returns 0). -/
def zmk_rgb_underglow_change_hue (cfg : Config) (ready : Bool) (st : RgbState)
    (direction : Int) : Int × RgbState :=
  if !ready then (-ENODEV, st)
  else (0, { st with color := zmk_rgb_underglow_calc_hue cfg st direction })

/-- `zmk_rgb_underglow_change_sat`. -/
def zmk_rgb_underglow_change_sat (cfg : Config) (ready : Bool) (st : RgbState)
    (direction : Int) : Int × RgbState :=
  if !ready then (-ENODEV, st)
  else (0, { st with color := zmk_rgb_underglow_calc_sat cfg st direction })

/-- `zmk_rgb_underglow_change_brt`. -/
def zmk_rgb_underglow_change_brt (cfg : Config) (ready : Bool) (st : RgbState)
    (direction : Int) : Int × RgbState :=
  if !ready then (-ENODEV, st)
  else (0, { st with color := zmk_rgb_underglow_calc_brt cfg st direction })

/-- `zmk_rgb_underglow_change_spd`: no-op at speed 1 stepping down, else the
8-bit speed field takes `speed + direction` (conversion `emod 256`), capped
at 5. -/
def zmk_rgb_underglow_change_spd (ready : Bool) (st : RgbState) (direction : Int) :
    Int × RgbState :=
  if !ready then (-ENODEV, st)
  else if st.animation_speed = 1 ∧ direction < 0 then (0, st)
  else
    let spd : Nat := (((st.animation_speed : Int) + direction).emod 256).toNat
    let spd : Nat := if 5 < spd then 5 else spd
    (0, { st with animation_speed := spd })

/-- `zmk_rgb_underglow_status` (trigger the status overlay): device check,
then activate the overlay and restart its counter (timer/power-rail side
effects are external). -/
def zmk_rgb_underglow_status (ready : Bool) (st : RgbState) : Int × RgbState :=
  if !ready then (-ENODEV, st)
  else (0, { st with status_active := true, status_animation_step := 0 })

/-- `zmk_rgb_underglow_set_periph`: stores the received record into
`led_data`, invokes on/off when the on flags differ, then stores the
record's effect field into `state.current_effect` unconditionally.
Returns the C return value, the new `state` and the new `led_data`. -/
def zmk_rgb_underglow_set_periph (ready : Bool) (st : RgbState) (periph : PeriphLed) :
    Int × RgbState × PeriphLed :=
  let led := periph
  let st1 :=
    if !st.is_on && led.is_on then (zmk_rgb_underglow_on ready st).2
    else if st.is_on && !led.is_on then (zmk_rgb_underglow_off ready st).2
    else st
  (0, { st1 with current_effect := led.effect }, led)

/-- `zmk_rgb_underglow_effect_breathe`: every pixel receives the same HSB
value — the configured color with brightness `abs(step - 1200) / 12`, put
through zero-max scaling (the float `hsb_to_rgb` rendering of that HSB is
outside the integer model) — then `animation_step += speed * 10` on the
16-bit field, reset to 0 when the result exceeds 2400. Returns the per-pixel
HSB and the new state. -/
def zmk_rgb_underglow_effect_breathe (cfg : Config) (st : RgbState) : Hsb × RgbState :=
  let hsb : Hsb := { st.color with b := ((st.animation_step : Int) - 1200).natAbs / 12 }
  let step1 : Nat := (st.animation_step + st.animation_speed * 10) % 65536
  let step2 : Nat := if 2400 < step1 then 0 else step1
  (hsb_scale_zero_max cfg hsb, { st with animation_step := step2 })

/-- `zmk_led_layer_to_colors`: layers 0-7 map to left = right = layer;
above that, left advances every 6 layers and right cycles, skipping ahead
by one whenever `left <= right`. Returns (left, right). -/
def zmk_led_layer_to_colors (layer : Nat) : Nat × Nat :=
  if layer < 8 then (layer, layer)
  else
    let left := 1 + (layer - 8) / 6
    let right := 1 + (layer - 8) % 6
    if left ≤ right then (left, right + 1) else (left, right)

/-- Fade-envelope part of `zmk_led_generate_status` (the painting of
`status_pixels` from battery/connection/layer inputs is external to the
claims): computes the blend value from `status_animation_step` and, once the
counter has reached `10000 / 25` ticks, deactivates the overlay and resets
the counter. Returns (blend, new state). -/
def zmk_led_generate_status (st : RgbState) : Nat × RgbState :=
  if st.status_animation_step < 500 / 25 then
    ((st.status_animation_step * 256) / (500 / 25), st)
  else if st.status_animation_step < 8000 / 25 then
    (256, st)
  else if st.status_animation_step < 10000 / 25 then
    (256 - ((st.status_animation_step - 8000 / 25) * 256) / (2000 / 25), st)
  else
    (0, { st with status_active := false, status_animation_step := 0 })

/-- Status portion of `zmk_led_write_pixels` (lines 661-664): when the
overlay is active, obtain the blend from `zmk_led_generate_status` and then
increment the 16-bit `status_animation_step`. Returns (blend, new state). -/
def zmk_led_write_pixels_status (st : RgbState) : Nat × RgbState :=
  if st.status_active then
    let p := zmk_led_generate_status st
    (p.1, { p.2 with status_animation_step := (p.2.status_animation_step + 1) % 65536 })
  else (0, st)

/-- One blended 8-bit channel of `zmk_led_write_pixels`:
`((status * blend_l) >> 8) + ((pixel * blend_r) >> 8)`, stored into a
`uint8_t` field (hence the final `% 256`). -/
def blend_channel (sc ec w : Nat) : Nat :=
  ((sc * w) / 256 + (ec * (256 - w)) / 256) % 256

/-- Compositing phase of `zmk_led_write_pixels` (the `led_buffer` contents
before battery dimming): blend 0 copies the effect pixels, blend >= 256
copies the status pixels, otherwise the fixed-point per-channel blend. -/
def composite (pix status : Nat → Rgb) (blend : Nat) : Nat → Rgb :=
  if blend = 0 then pix
  else if 256 ≤ blend then status
  else fun i =>
    { r := blend_channel (status i).r (pix i).r blend
      g := blend_channel (status i).g (pix i).g blend
      b := blend_channel (status i).b (pix i).b blend }

/-- Battery-dimming phase of `zmk_led_write_pixels`: below 10% the buffer is
zeroed (`memset`), below 20% every channel is shifted right by one,
otherwise unchanged. -/
def battery_dim (bat : Nat) (buf : Nat → Rgb) : Nat → Rgb :=
  if bat < 10 then fun _ => { r := 0, g := 0, b := 0 }
  else if bat < 20 then fun i => { r := (buf i).r / 2, g := (buf i).g / 2, b := (buf i).b / 2 }
  else buf

/-- Buffer handed to `led_strip_update_rgb` by `zmk_led_write_pixels`, as a
function of the effect buffer, status buffer, blend value and battery
level: the fast path (blend 0 and battery >= 20) sends the effect buffer
directly; otherwise the composited buffer with battery dimming applied. -/
def zmk_led_write_pixels (pix status : Nat → Rgb) (blend bat : Nat) : Nat → Rgb :=
  if blend = 0 ∧ 20 ≤ bat then pix
  else battery_dim bat (composite pix status blend)

/-- A concrete quiescent state used by witnesses and counterexamples. -/
def st0 : RgbState :=
  { color := { h := 0, s := 0, b := 100 }, animation_speed := 1, current_effect := 0
    animation_step := 0, is_on := false, status_active := false, status_animation_step := 0 }

/-- A concrete configuration used by witnesses and counterexamples. -/
def cfg0 : Config :=
  { brt_min := 0, brt_max := 100, hue_step := 10, sat_step := 10, brt_step := 10 }

/-- A concrete constant effect buffer used by witnesses. -/
def efun : Nat → Rgb := fun _ => { r := 200, g := 100, b := 50 }

/-- A concrete constant status buffer used by witnesses. -/
def sfun : Nat → Rgb := fun _ => { r := 10, g := 20, b := 30 }

/-- A concrete all-ones buffer used by the C4 counterexample. -/
def onefun : Nat → Rgb := fun _ => { r := 1, g := 1, b := 1 }

/-- C1 counterexample: the public color setter accepts hue 360 — the claim
says any H > 359 is rejected — and the stored hue is then 360, outside
[0,360). -/
theorem C1_set_hsb_counterexample :
    (zmk_rgb_underglow_set_hsb true st0 { h := 360, s := 50, b := 50 }).1 = 0 ∧
    (zmk_rgb_underglow_set_hsb true st0 { h := 360, s := 50, b := 50 }).2.color.h = 360 ∧
    ¬ (zmk_rgb_underglow_set_hsb true st0 { h := 360, s := 50, b := 50 }).2.color.h < 360 := by
  decide

/-- C1 (amended): `zmk_rgb_underglow_set_hsb` rejects exactly the inputs with
H > 360 or S > 100 or B > 100, returning `-ENOTSUP` and leaving the state
unchanged; it accepts all other inputs (including H = 360), storing the
color; hence after any accepted call the stored hue lies in [0,360]. -/
theorem C1_set_hsb_amended (ready : Bool) (st : RgbState) (c : Hsb) :
    ((360 < c.h ∨ 100 < c.s ∨ 100 < c.b) →
      zmk_rgb_underglow_set_hsb ready st c = (-ENOTSUP, st)) ∧
    (c.h ≤ 360 → c.s ≤ 100 → c.b ≤ 100 →
      zmk_rgb_underglow_set_hsb ready st c = (0, { st with color := c })) ∧
    ((zmk_rgb_underglow_set_hsb ready st c).1 = 0 →
      (zmk_rgb_underglow_set_hsb ready st c).2.color.h ≤ 360) := by
  refine ⟨fun h => ?_, fun h1 h2 h3 => ?_, fun h => ?_⟩
  · have hc : HUE_MAX < c.h ∨ SAT_MAX < c.s ∨ BRT_MAX < c.b := by
      simpa [HUE_MAX, SAT_MAX, BRT_MAX] using h
    simp [zmk_rgb_underglow_set_hsb, hc]
  · have hc : ¬ (HUE_MAX < c.h ∨ SAT_MAX < c.s ∨ BRT_MAX < c.b) := by
      simp [HUE_MAX, SAT_MAX, BRT_MAX]
      omega
    simp [zmk_rgb_underglow_set_hsb, hc]
  · by_cases hc : HUE_MAX < c.h ∨ SAT_MAX < c.s ∨ BRT_MAX < c.b
    · simp [zmk_rgb_underglow_set_hsb, hc, ENOTSUP] at h
    · have hh : c.h ≤ 360 := by
        rcases not_or.mp hc with ⟨h1, _⟩
        simpa [HUE_MAX] using h1
      simp [zmk_rgb_underglow_set_hsb, hc, hh]

/-- C1 witness: the amended theorem applied at concrete inputs — hue 361 is
rejected with `-ENOTSUP`, hue 360 with full saturation and brightness is
accepted and stored. -/
theorem C1_set_hsb_amended_witness :
    zmk_rgb_underglow_set_hsb true st0 { h := 361, s := 0, b := 0 } = (-ENOTSUP, st0) ∧
    zmk_rgb_underglow_set_hsb true st0 { h := 360, s := 100, b := 100 } =
      (0, { st0 with color := { h := 360, s := 100, b := 100 } }) := by
  exact ⟨(C1_set_hsb_amended true st0 { h := 361, s := 0, b := 0 }).1 (by decide),
    (C1_set_hsb_amended true st0 { h := 360, s := 100, b := 100 }).2.1 (by decide) (by decide)
      (by decide)⟩

/-- C5: compositing with blend weight 0 yields the effect buffer exactly and
blend weight 256 yields the status buffer exactly, channel-wise; on the full
write path with battery at least 20%, blend 0 sends exactly the effect
buffer. -/
theorem C5_blend_endpoints (pix status : Nat → Rgb) (bat : Nat) :
    composite pix status 0 = pix ∧
    composite pix status 256 = status ∧
    (20 ≤ bat → zmk_led_write_pixels pix status 0 bat = pix) := by
  refine ⟨by simp [composite], by norm_num [composite], fun h => ?_⟩
  simp [zmk_led_write_pixels, h]

/-- C5 witness: the endpoint equalities evaluated at concrete buffers and a
concrete battery level. -/
theorem C5_blend_endpoints_witness :
    composite efun sfun 0 = efun ∧ composite efun sfun 256 = sfun ∧
    zmk_led_write_pixels efun sfun 0 50 = efun := by
  exact ⟨(C5_blend_endpoints efun sfun 50).1, (C5_blend_endpoints efun sfun 50).2.1,
    (C5_blend_endpoints efun sfun 50).2.2 (by decide)⟩

/-- C6: with the strip device available, `zmk_rgb_underglow_select_effect`
rejects every index outside 0..6 (in particular -1 and 7) with `-EINVAL`
and an unchanged state, and accepts every index in 0..6, storing it as the
current effect and resetting the animation counter. -/
theorem C6_select_effect (st : RgbState) (effect : Int) :
    ((effect < 0 ∨ 7 ≤ effect) →
      zmk_rgb_underglow_select_effect true st effect = (-EINVAL, st)) ∧
    (0 ≤ effect → effect < 7 →
      zmk_rgb_underglow_select_effect true st effect =
        (0, { st with current_effect := effect.toNat, animation_step := 0 })) := by
  constructor
  · intro h
    have h7 : effect < 0 ∨ (UNDERGLOW_EFFECT_NUMBER : Int) ≤ effect := by
      simpa [UNDERGLOW_EFFECT_NUMBER] using h
    simp [zmk_rgb_underglow_select_effect, h7]
  · intro h0 h7
    have hc : ¬ (effect < 0 ∨ (UNDERGLOW_EFFECT_NUMBER : Int) ≤ effect) := by
      simp [UNDERGLOW_EFFECT_NUMBER]
      omega
    simp [zmk_rgb_underglow_select_effect, hc]

/-- C6 witness: index -1 and index 7 rejected, index 3 accepted, at a
concrete state. -/
theorem C6_select_effect_witness :
    zmk_rgb_underglow_select_effect true st0 (-1) = (-EINVAL, st0) ∧
    zmk_rgb_underglow_select_effect true st0 7 = (-EINVAL, st0) ∧
    zmk_rgb_underglow_select_effect true st0 3 =
      (0, { st0 with current_effect := 3, animation_step := 0 }) := by
  refine ⟨(C6_select_effect st0 (-1)).1 (by decide), (C6_select_effect st0 7).1 (by decide), ?_⟩
  exact (C6_select_effect st0 3).2 (by decide) (by decide)

/-- C2: battery dimming is applied to the final composited output of
`zmk_led_write_pixels` — below 10% every channel of the written buffer is
zero regardless of the effect buffer, status buffer and blend weight;
from 10% to below 20% every channel is the composited channel halved;
at 20% and above the composited result is written unchanged. -/
theorem C2_battery_dimming (pix status : Nat → Rgb) (blend bat : Nat) :
    (bat < 10 → ∀ i,
      zmk_led_write_pixels pix status blend bat i = { r := 0, g := 0, b := 0 }) ∧
    (10 ≤ bat → bat < 20 → ∀ i,
      zmk_led_write_pixels pix status blend bat i =
        { r := (composite pix status blend i).r / 2
          g := (composite pix status blend i).g / 2
          b := (composite pix status blend i).b / 2 }) ∧
    (20 ≤ bat → ∀ i,
      zmk_led_write_pixels pix status blend bat i = composite pix status blend i) := by
  refine ⟨fun h i => ?_, fun h1 h2 i => ?_, fun h i => ?_⟩
  · have hn : ¬ (blend = 0 ∧ 20 ≤ bat) := by omega
    simp [zmk_led_write_pixels, hn, battery_dim, h]
  · have hn : ¬ (blend = 0 ∧ 20 ≤ bat) := by omega
    have h10 : ¬ bat < 10 := by omega
    simp [zmk_led_write_pixels, hn, battery_dim, h10, h2]
  · by_cases hb : blend = 0
    · simp [zmk_led_write_pixels, hb, h, composite]
    · have hn : ¬ (blend = 0 ∧ 20 ≤ bat) := by tauto
      have h10 : ¬ bat < 10 := by omega
      have h20 : ¬ bat < 20 := by omega
      simp [zmk_led_write_pixels, hn, battery_dim, h10, h20]

/-- C2 witness: the three battery bands evaluated at concrete buffers,
blend weights and pixel indices. -/
theorem C2_battery_dimming_witness :
    zmk_led_write_pixels efun sfun 100 5 0 = { r := 0, g := 0, b := 0 } ∧
    zmk_led_write_pixels efun sfun 0 15 3 =
      { r := (composite efun sfun 0 3).r / 2
        g := (composite efun sfun 0 3).g / 2
        b := (composite efun sfun 0 3).b / 2 } ∧
    zmk_led_write_pixels efun sfun 128 50 1 = composite efun sfun 128 1 := by
  exact ⟨(C2_battery_dimming efun sfun 100 5).1 (by decide) 0,
    (C2_battery_dimming efun sfun 0 15).2.1 (by decide) (by decide) 3,
    (C2_battery_dimming efun sfun 128 50).2.2 (by decide) 1⟩

/-- C4 counterexample: at S[i] = E[i] = 1 and w = 128 the code computes
((1*128) >> 8) + ((1*128) >> 8) = 0, while the claimed single-shift formula
(S[i]*w + E[i]*(256-w)) >> 8 gives 1. -/
theorem C4_blend_counterexample :
    (composite onefun onefun 128 0).r = 0 ∧
    (1 * 128 + 1 * (256 - 128)) / 256 = 1 ∧
    (composite onefun onefun 128 0).r ≠ (1 * 128 + 1 * (256 - 128)) / 256 := by
  decide

/-- C4 (amended): for 0 < w < 256 the compositor writes, per channel,
output[i] = ((S[i]·w) >> 8) + ((E[i]·(256−w)) >> 8) — each product is
shifted separately before the sum (for 8-bit channel inputs the sum never
exceeds 255, so the 8-bit store truncates nothing). -/
theorem C4_blend_amended (pix status : Nat → Rgb) (w i : Nat)
    (h0 : 0 < w) (h1 : w < 256)
    (hsr : (status i).r ≤ 255) (hsg : (status i).g ≤ 255) (hsb : (status i).b ≤ 255)
    (her : (pix i).r ≤ 255) (heg : (pix i).g ≤ 255) (heb : (pix i).b ≤ 255) :
    composite pix status w i =
      { r := ((status i).r * w) / 256 + ((pix i).r * (256 - w)) / 256
        g := ((status i).g * w) / 256 + ((pix i).g * (256 - w)) / 256
        b := ((status i).b * w) / 256 + ((pix i).b * (256 - w)) / 256 } := by
  have hw0 : ¬ w = 0 := by omega
  have hw1 : ¬ 256 ≤ w := by omega
  have key : ∀ s e : Nat, s ≤ 255 → e ≤ 255 →
      blend_channel s e w = (s * w) / 256 + (e * (256 - w)) / 256 := by
    intro s e hs he
    unfold blend_channel
    apply Nat.mod_eq_of_lt
    obtain ⟨a, ha⟩ : ∃ a, s * w = a := ⟨_, rfl⟩
    obtain ⟨b, hb⟩ : ∃ b, e * (256 - w) = b := ⟨_, rfl⟩
    have ha2 : a ≤ 255 * w := ha ▸ Nat.mul_le_mul_right w hs
    have hb2 : b ≤ 255 * (256 - w) := hb ▸ Nat.mul_le_mul_right _ he
    rw [ha, hb]
    omega
  simp [composite, hw0, hw1, key _ _ hsr her, key _ _ hsg heg, key _ _ hsb heb]

/-- C4 witness: the amended per-channel formula evaluated at concrete
buffers, w = 128, index 0. -/
theorem C4_blend_amended_witness :
    composite efun sfun 128 0 =
      { r := (10 * 128) / 256 + (200 * (256 - 128)) / 256
        g := (20 * 128) / 256 + (100 * (256 - 128)) / 256
        b := (30 * 128) / 256 + (50 * (256 - 128)) / 256 } := by
  have h := C4_blend_amended efun sfun 128 0 (by decide) (by decide) (by decide) (by decide)
    (by decide) (by decide) (by decide) (by decide)
  simpa [efun, sfun] using h

/-- C8: `zmk_led_layer_to_colors` maps each layer 0-7 to left = right =
layer; for every layer from 8 up (through the full `uint8_t` range) the
computed right index differs from the left index; layers 14 and 20 give the
distinct non-colliding pairs (2,1) and (3,1). -/
theorem C8_layer_to_colors (layer : Nat) (h : layer < 256) :
    (layer < 8 → zmk_led_layer_to_colors layer = (layer, layer)) ∧
    (8 ≤ layer → (zmk_led_layer_to_colors layer).1 ≠ (zmk_led_layer_to_colors layer).2) ∧
    zmk_led_layer_to_colors 14 = (2, 1) ∧
    zmk_led_layer_to_colors 20 = (3, 1) ∧
    zmk_led_layer_to_colors 14 ≠ zmk_led_layer_to_colors 20 ∧
    (zmk_led_layer_to_colors 14).1 ≠ (zmk_led_layer_to_colors 14).2 ∧
    (zmk_led_layer_to_colors 20).1 ≠ (zmk_led_layer_to_colors 20).2 := by
  refine ⟨fun h8 => by simp [zmk_led_layer_to_colors, h8], fun h8 => ?_, by decide, by decide,
    by decide, by decide, by decide⟩
  have h8n : ¬ layer < 8 := by omega
  simp only [zmk_led_layer_to_colors, h8n, if_false]
  split
  · simp only [ne_eq]
    omega
  · simp only [ne_eq]
    omega

/-- C8 witness: the theorem applied at layer 9 (pair (1,3), no collision). -/
theorem C8_layer_to_colors_witness :
    zmk_led_layer_to_colors 9 = (1, 3) ∧
    (zmk_led_layer_to_colors 9).1 ≠ (zmk_led_layer_to_colors 9).2 := by
  exact ⟨by decide, (C8_layer_to_colors 9 (by decide)).2.1 (by decide)⟩

set_option maxRecDepth 100000 in
/-- C3 counterexample: starting from animation_step = 0 at speed 1, after
240 Breathe ticks the counter is 2400, not 0 — the code resets only when
the counter strictly exceeds 2400, so the period is 241 ticks. -/
theorem C3_breathe_counterexample :
    ((fun s => (zmk_rgb_underglow_effect_breathe cfg0 s).2)^[240] st0).animation_step = 2400 ∧
    ((fun s => (zmk_rgb_underglow_effect_breathe cfg0 s).2)^[240] st0).animation_step ≠ 0 := by
  decide

set_option maxRecDepth 100000 in
/-- C3 (amended): on a Breathe tick every pixel's brightness is
|animation_step − 1200| / 12 put through zero-max scaling, and
animation_step then increases by speed×10, resetting to 0 only when the
new value strictly exceeds 2400; hence from animation_step = 0 at speed 1
the counter first returns to 0 after 241 ticks (it is 2400 after 240). -/
theorem C3_breathe_amended (cfg : Config) (st : RgbState) :
    (zmk_rgb_underglow_effect_breathe cfg st).1.b =
      (((st.animation_step : Int) - 1200).natAbs / 12) * cfg.brt_max / 100 ∧
    (st.animation_step + st.animation_speed * 10 < 65536 →
      (zmk_rgb_underglow_effect_breathe cfg st).2.animation_step =
        (if 2400 < st.animation_step + st.animation_speed * 10 then 0
         else st.animation_step + st.animation_speed * 10)) ∧
    ((fun s => (zmk_rgb_underglow_effect_breathe cfg0 s).2)^[241] st0).animation_step = 0 := by
  refine ⟨?_, fun h => ?_, by decide⟩
  · simp [zmk_rgb_underglow_effect_breathe, hsb_scale_zero_max, BRT_MAX]
  · have hmod : (st.animation_step + st.animation_speed * 10) % 65536 =
        st.animation_step + st.animation_speed * 10 := Nat.mod_eq_of_lt h
    simp [zmk_rgb_underglow_effect_breathe, hmod]

/-- C3 witness: the amended per-tick facts at the initial state — brightness
|0 − 1200| / 12 = 100 (scaled by 100/100) and the counter stepping 0 → 10. -/
theorem C3_breathe_amended_witness :
    (zmk_rgb_underglow_effect_breathe cfg0 st0).1.b = 100 ∧
    (zmk_rgb_underglow_effect_breathe cfg0 st0).2.animation_step = 10 := by
  have h1 := (C3_breathe_amended cfg0 st0).1
  have h2 := (C3_breathe_amended cfg0 st0).2.1 (by decide)
  constructor
  · simpa [st0, cfg0] using h1
  · simpa [st0] using h2

/-- C7: while the status overlay is active, one tick of the write-pixels
status path advances the counter by exactly one and yields a blend weight
in [0,256] through three linear phases — counter below 20 (500 ms of 25 ms
ticks): blend = counter·256/20; counter in [20,320): blend = 256; counter
in [320,400) (2000 ms fade-out): blend = 256 − (counter−320)·256/80 — and
once the counter has reached 400 ticks `zmk_led_generate_status`
deactivates the overlay: status_active becomes false, the counter is reset
to 0 and the blend is 0. -/
theorem C7_status_envelope (st : RgbState) (hact : st.status_active = true) :
    (st.status_animation_step < 400 →
      (zmk_led_write_pixels_status st).2.status_animation_step =
        st.status_animation_step + 1 ∧
      (zmk_led_write_pixels_status st).2.status_active = true ∧
      (zmk_led_write_pixels_status st).1 ≤ 256 ∧
      (st.status_animation_step < 20 →
        (zmk_led_write_pixels_status st).1 = st.status_animation_step * 256 / 20) ∧
      (20 ≤ st.status_animation_step → st.status_animation_step < 320 →
        (zmk_led_write_pixels_status st).1 = 256) ∧
      (320 ≤ st.status_animation_step →
        (zmk_led_write_pixels_status st).1 =
          256 - (st.status_animation_step - 320) * 256 / 80)) ∧
    (400 ≤ st.status_animation_step →
      (zmk_led_generate_status st).2.status_active = false ∧
      (zmk_led_generate_status st).2.status_animation_step = 0 ∧
      (zmk_led_generate_status st).1 = 0 ∧
      (zmk_led_write_pixels_status st).2.status_active = false) := by
  constructor
  · intro h400
    have key : (zmk_led_write_pixels_status st).1 =
        (if st.status_animation_step < 20 then st.status_animation_step * 256 / 20
         else if st.status_animation_step < 320 then 256
         else 256 - (st.status_animation_step - 320) * 256 / 80) ∧
        (zmk_led_write_pixels_status st).2 =
          { st with status_animation_step := (st.status_animation_step + 1) % 65536 } := by
      by_cases h20 : st.status_animation_step < 20
      · have h320 : st.status_animation_step < 320 := by omega
        simp [zmk_led_write_pixels_status, zmk_led_generate_status, hact, h20, h320]
      · by_cases h320 : st.status_animation_step < 320
        · simp [zmk_led_write_pixels_status, zmk_led_generate_status, hact, h20, h320]
        · simp [zmk_led_write_pixels_status, zmk_led_generate_status, hact, h20, h320, h400]
    obtain ⟨k1, k2⟩ := key
    have hmod : (st.status_animation_step + 1) % 65536 = st.status_animation_step + 1 :=
      Nat.mod_eq_of_lt (by omega)
    refine ⟨?_, ?_, ?_, fun h20 => ?_, fun hge h320 => ?_, fun hge => ?_⟩
    · rw [k2]
      simpa using hmod
    · rw [k2]
      exact hact
    · rw [k1]
      split
      · omega
      · split
        · omega
        · omega
    · rw [k1, if_pos h20]
    · rw [k1, if_neg (by omega), if_pos h320]
    · rw [k1, if_neg (by omega), if_neg (by omega)]
  · intro h400
    have hn20 : ¬ st.status_animation_step < 20 := by omega
    have hn320 : ¬ st.status_animation_step < 320 := by omega
    have hn400 : ¬ st.status_animation_step < 400 := by omega
    refine ⟨?_, ?_, ?_, ?_⟩ <;>
      simp [zmk_led_write_pixels_status, zmk_led_generate_status, hact, hn20, hn320, hn400]

/-- C7 witness: at counter 10 the blend is 128 and the counter advances to
11; at counter 400 the overlay deactivates with the counter reset to 0. -/
theorem C7_status_envelope_witness :
    (zmk_led_write_pixels_status
      { st0 with status_active := true, status_animation_step := 10 }).1 = 128 ∧
    (zmk_led_write_pixels_status
      { st0 with status_active := true, status_animation_step := 10 }
      ).2.status_animation_step = 11 ∧
    (zmk_led_generate_status { st0 with status_active := true, status_animation_step := 400 }
      ).2.status_active = false ∧
    (zmk_led_generate_status { st0 with status_active := true, status_animation_step := 400 }
      ).2.status_animation_step = 0 := by
  have h1 := (C7_status_envelope
    { st0 with status_active := true, status_animation_step := 10 } (by decide)).1 (by decide)
  have h2 := (C7_status_envelope
    { st0 with status_active := true, status_animation_step := 400 } (by decide)).2 (by decide)
  refine ⟨?_, ?_, h2.1, h2.2.1⟩
  · rw [h1.2.2.2.1 (by decide)]
    decide
  · rw [h1.1]

/-- C9 counterexample: with the strip device unavailable,
`zmk_rgb_underglow_set_hsb` — whose body performs no device check — still
succeeds and overwrites the stored color, contradicting the claim that
every public command fails fast with a device-not-ready result and
performs no state mutation. -/
theorem C9_not_ready_counterexample :
    (zmk_rgb_underglow_set_hsb false st0 { h := 120, s := 50, b := 50 }).1 = 0 ∧
    (zmk_rgb_underglow_set_hsb false st0 { h := 120, s := 50, b := 50 }).2.color ≠
      st0.color ∧
    (zmk_rgb_underglow_set_hsb false st0 { h := 120, s := 50, b := 50 }).1 ≠ -ENODEV := by
  decide

/-- C9 (amended): with the strip device unavailable every public command
except set-color fails fast with `-ENODEV` and leaves the state unchanged;
set-color alone performs no device check — any in-range color is accepted
and stored even then. -/
theorem C9_not_ready_amended (cfg : Config) (st : RgbState) (d : Int) :
    zmk_rgb_underglow_on false st = (-ENODEV, st) ∧
    zmk_rgb_underglow_off false st = (-ENODEV, st) ∧
    zmk_rgb_underglow_toggle false st = (-ENODEV, st) ∧
    zmk_rgb_underglow_select_effect false st d = (-ENODEV, st) ∧
    zmk_rgb_underglow_cycle_effect false st d = (-ENODEV, st) ∧
    zmk_rgb_underglow_change_hue cfg false st d = (-ENODEV, st) ∧
    zmk_rgb_underglow_change_sat cfg false st d = (-ENODEV, st) ∧
    zmk_rgb_underglow_change_brt cfg false st d = (-ENODEV, st) ∧
    zmk_rgb_underglow_change_spd false st d = (-ENODEV, st) ∧
    zmk_rgb_underglow_status false st = (-ENODEV, st) ∧
    (∀ c : Hsb, c.h ≤ 360 → c.s ≤ 100 → c.b ≤ 100 →
      zmk_rgb_underglow_set_hsb false st c = (0, { st with color := c })) := by
  refine ⟨rfl, rfl, ?_, rfl, rfl, rfl, rfl, rfl, rfl, rfl, fun c h1 h2 h3 => ?_⟩
  · cases hon : st.is_on <;>
      simp [zmk_rgb_underglow_toggle, hon, zmk_rgb_underglow_on, zmk_rgb_underglow_off]
  · have hc : ¬ (HUE_MAX < c.h ∨ SAT_MAX < c.s ∨ BRT_MAX < c.b) := by
      simp [HUE_MAX, SAT_MAX, BRT_MAX]
      omega
    simp [zmk_rgb_underglow_set_hsb, hc]

/-- C9 witness: the amended behavior at concrete inputs — `on` rejected
with `-ENODEV`, set-color accepted and stored despite the missing device. -/
theorem C9_not_ready_amended_witness :
    zmk_rgb_underglow_on false st0 = (-ENODEV, st0) ∧
    zmk_rgb_underglow_set_hsb false st0 { h := 300, s := 40, b := 40 } =
      (0, { st0 with color := { h := 300, s := 40, b := 40 } }) := by
  exact ⟨(C9_not_ready_amended cfg0 st0 1).1,
    (C9_not_ready_amended cfg0 st0 1).2.2.2.2.2.2.2.2.2.2 { h := 300, s := 40, b := 40 }
      (by decide) (by decide) (by decide)⟩

/-- C10: with the strip device available, `zmk_rgb_underglow_set_periph`
returns 0, stores the received record as the new `led_data`, copies the
record's effect field into `current_effect` for every record — including
effect values outside 0..6, i.e. no range validation — and makes
`state.on` equal to the record's on flag, invoking the on/off operations
exactly when the flags differ: equal flags leave everything but
`current_effect` untouched, turning on goes through
`zmk_rgb_underglow_on` (which also clears `animation_step`), turning off
through `zmk_rgb_underglow_off`. -/
theorem C10_set_periph (st : RgbState) (periph : PeriphLed) :
    (zmk_rgb_underglow_set_periph true st periph).1 = 0 ∧
    (zmk_rgb_underglow_set_periph true st periph).2.2 = periph ∧
    (zmk_rgb_underglow_set_periph true st periph).2.1.current_effect = periph.effect ∧
    (zmk_rgb_underglow_set_periph true st periph).2.1.is_on = periph.is_on ∧
    (st.is_on = periph.is_on →
      (zmk_rgb_underglow_set_periph true st periph).2.1 =
        { st with current_effect := periph.effect }) ∧
    (st.is_on = false → periph.is_on = true →
      (zmk_rgb_underglow_set_periph true st periph).2.1 =
        { (zmk_rgb_underglow_on true st).2 with current_effect := periph.effect }) ∧
    (st.is_on = true → periph.is_on = false →
      (zmk_rgb_underglow_set_periph true st periph).2.1 =
        { (zmk_rgb_underglow_off true st).2 with current_effect := periph.effect }) := by
  cases hon : st.is_on <;> cases hpon : periph.is_on <;>
    simp [zmk_rgb_underglow_set_periph, zmk_rgb_underglow_on, zmk_rgb_underglow_off, hon,
      hpon]

/-- C10 witness: a record with the out-of-range effect value 200 and on
flag set, applied to an off state — the effect is stored unvalidated and
the on path (with its animation-step reset) is taken. -/
theorem C10_set_periph_witness :
    (zmk_rgb_underglow_set_periph true st0
      { layer := 3, indicators := 2, is_on := true, effect := 200 }).2.1.current_effect =
      200 ∧
    (zmk_rgb_underglow_set_periph true st0
      { layer := 3, indicators := 2, is_on := true, effect := 200 }).2.1 =
      { (zmk_rgb_underglow_on true st0).2 with current_effect := 200 } := by
  exact ⟨(C10_set_periph st0 { layer := 3, indicators := 2, is_on := true, effect := 200 }
      ).2.2.1,
    (C10_set_periph st0 { layer := 3, indicators := 2, is_on := true, effect := 200 }
      ).2.2.2.2.2.1 (by decide) (by decide)⟩
